import Mathlib

/-!
Verification of the Leadership Communication Coach repository.

The repository ships a Next.js frontend (under `frontend/src`), shared DTO
type declarations (`lib/types.ts`), and design documents (`ASSUMPTIONS.md`,
`airtable_migration_diff.md`, the README).  The backend orchestration engine
(Python: `core/workers.py`, `core/gate1_validator.py`, idempotency key
derivation) is not part of the visible sources, so those components are
modelled from the specification; every such definition is marked
`Modelled from the spec:` in its doc string.  Frontend behaviour
(`useRunPoller.ts`, `AuthCallbackPage`, `TranscriptUpload.tsx`,
`client/analyze/page.tsx`) is embedded directly from the TypeScript source.
-/

namespace LCC

/-- Run lifecycle status, from `lib/types.ts` (`RunStatus.status`):
`'queued' | 'running' | 'complete' | 'error'`. -/
inductive RunStatusKind where
  | queued
  | running
  | complete
  | error
deriving DecidableEq, Repr, BEq

/-- Result of one `api.getRun` fetch as observed by `useRunPoller`:
either a run payload (of which only `status` matters to the poller)
or a thrown exception (the `catch` branch). -/
inductive FetchResult where
  | ok (s : RunStatusKind)
  | exn
deriving DecidableEq, Repr

/-- `PollState` from `hooks/useRunPoller.ts`:
`'polling' | 'complete' | 'error' | 'timeout'`. -/
inductive PollState where
  | polling
  | complete
  | error
  | timeout
deriving DecidableEq, Repr

/-- `MAX_POLLS = 60` from `hooks/useRunPoller.ts`. -/
def MAX_POLLS : Nat := 60

/-- `POLL_INTERVAL_MS = 3000` from `hooks/useRunPoller.ts`. -/
def POLL_INTERVAL_MS : Nat := 3000

/-- A fetched result on which the poller keeps polling: a run payload whose
status is neither `complete` nor `error`. -/
def nonTerminal : FetchResult → Bool
  | .ok .queued => true
  | .ok .running => true
  | _ => false

/-- The recursive `poll` closure of `useRunPoller` (`hooks/useRunPoller.ts`):
`count` is incremented, the run is fetched; a thrown fetch sets state
`error`; status `complete`/`error` sets the matching state and stops;
otherwise if `count >= MAX_POLLS` the state becomes `timeout`, else another
poll is scheduled.  `fetch n` is the result of the n-th request (n ≥ 1).
Returns the final `(pollState, pollCount)`.  `remaining` is structural fuel
kept at the invariant `remaining + count = MAX_POLLS`, so its zero branch
coincides with the source's `count >= MAX_POLLS` timeout check and is
otherwise unreachable. -/
def pollFrom (fetch : Nat → FetchResult) : Nat → Nat → PollState × Nat
  | remaining, count =>
    match fetch (count + 1) with
    | .exn => (.error, count + 1)
    | .ok .complete => (.complete, count + 1)
    | .ok .error => (.error, count + 1)
    | .ok .queued | .ok .running =>
        if MAX_POLLS ≤ count + 1 then (.timeout, count + 1)
        else
          match remaining with
          | 0 => (.timeout, count + 1)
          | r + 1 => pollFrom fetch r (count + 1)

/-- `useRunPoller` with a non-null `runId`: the effect starts `poll()` with
`count = 0` and runs until a terminal poll state is reached. -/
def useRunPoller (fetch : Nat → FetchResult) : PollState × Nat :=
  pollFrom fetch MAX_POLLS 0

example : useRunPoller (fun _ => .ok .complete) = (.complete, 1) := by decide
example : useRunPoller (fun _ => .ok .running) = (.timeout, 60) := by decide
example : useRunPoller (fun n => if n < 3 then .ok .queued else .ok .error)
    = (.error, 3) := by decide

/-- Full characterisation of the poll loop, assuming the fuel invariant
`remaining + count = MAX_POLLS` with at least one poll left. -/
theorem pollFrom_spec (fetch : Nat → FetchResult) :
    ∀ remaining count st n,
    remaining + count = MAX_POLLS → count < MAX_POLLS →
    pollFrom fetch remaining count = (st, n) →
    count < n ∧ n ≤ MAX_POLLS ∧
    (∀ k, count < k → k < n → nonTerminal (fetch k) = true) ∧
    (fetch n = .exn → st = .error) ∧
    (fetch n = .ok .complete → st = .complete) ∧
    (fetch n = .ok .error → st = .error) ∧
    (nonTerminal (fetch n) = true → st = .timeout ∧ n = MAX_POLLS) := by
  intro remaining
  induction remaining with
  | zero =>
    intro count st n h1 h2 _
    simp only [MAX_POLLS] at h1 h2
    omega
  | succ r ih =>
    intro count st n h1 h2 heq
    rw [pollFrom] at heq
    cases hf : fetch (count + 1) with
    | exn =>
      rw [hf] at heq
      simp only [Prod.mk.injEq] at heq
      obtain ⟨rfl, rfl⟩ := heq
      simp only [MAX_POLLS] at h1 h2 ⊢
      refine ⟨by omega, by omega, fun k hk1 hk2 => by omega, ?_, ?_, ?_, ?_⟩ <;>
        simp [hf, nonTerminal]
    | ok s =>
      cases s with
      | complete =>
        rw [hf] at heq
        simp only [Prod.mk.injEq] at heq
        obtain ⟨rfl, rfl⟩ := heq
        simp only [MAX_POLLS] at h1 h2 ⊢
        refine ⟨by omega, by omega, fun k hk1 hk2 => by omega, ?_, ?_, ?_, ?_⟩ <;>
          simp [hf, nonTerminal]
      | error =>
        rw [hf] at heq
        simp only [Prod.mk.injEq] at heq
        obtain ⟨rfl, rfl⟩ := heq
        simp only [MAX_POLLS] at h1 h2 ⊢
        refine ⟨by omega, by omega, fun k hk1 hk2 => by omega, ?_, ?_, ?_, ?_⟩ <;>
          simp [hf, nonTerminal]
      | queued =>
        rw [hf] at heq
        by_cases hc : MAX_POLLS ≤ count + 1
        · simp only [if_pos hc, Prod.mk.injEq] at heq
          obtain ⟨rfl, rfl⟩ := heq
          simp only [MAX_POLLS] at h1 h2 hc ⊢
          refine ⟨by omega, by omega, fun k hk1 hk2 => by omega, ?_, ?_, ?_, ?_⟩ <;>
            simp [hf, nonTerminal] <;> omega
        · simp only [if_neg hc] at heq
          have h1' : r + (count + 1) = MAX_POLLS := by omega
          have h2' : count + 1 < MAX_POLLS := by omega
          obtain ⟨ha, hb, hc', hd, he, hg, hh⟩ := ih (count + 1) st n h1' h2' heq
          refine ⟨by omega, hb, ?_, hd, he, hg, hh⟩
          intro k hk1 hk2
          rcases Nat.eq_or_lt_of_le hk1 with hk | hk
          · rw [← hk, hf]; rfl
          · exact hc' k hk hk2
      | running =>
        rw [hf] at heq
        by_cases hc : MAX_POLLS ≤ count + 1
        · simp only [if_pos hc, Prod.mk.injEq] at heq
          obtain ⟨rfl, rfl⟩ := heq
          simp only [MAX_POLLS] at h1 h2 hc ⊢
          refine ⟨by omega, by omega, fun k hk1 hk2 => by omega, ?_, ?_, ?_, ?_⟩ <;>
            simp [hf, nonTerminal] <;> omega
        · simp only [if_neg hc] at heq
          have h1' : r + (count + 1) = MAX_POLLS := by omega
          have h2' : count + 1 < MAX_POLLS := by omega
          obtain ⟨ha, hb, hc', hd, he, hg, hh⟩ := ih (count + 1) st n h1' h2' heq
          refine ⟨by omega, hb, ?_, hd, he, hg, hh⟩
          intro k hk1 hk2
          rcases Nat.eq_or_lt_of_le hk1 with hk | hk
          · rw [← hk, hf]; rfl
          · exact hc' k hk hk2

/-- C8: the run poller terminates: for every fetch behaviour, it issues at
least one and at most `MAX_POLLS = 60` polls; every poll before the last one
saw a non-terminal run status (so it stops scheduling as soon as a fetch
returns status `complete` or `error`, entering poll state `complete` or
`error` respectively, and also stops on a thrown fetch with state `error`);
and when the last fetched status is still non-terminal it enters poll state
`timeout` exactly at the 60th poll — it never polls past 60 attempts. -/
theorem useRunPoller_terminates (fetch : Nat → FetchResult) :
    1 ≤ (useRunPoller fetch).2 ∧ (useRunPoller fetch).2 ≤ MAX_POLLS ∧
    (∀ k, 0 < k → k < (useRunPoller fetch).2 → nonTerminal (fetch k) = true) ∧
    (fetch (useRunPoller fetch).2 = .exn → (useRunPoller fetch).1 = .error) ∧
    (fetch (useRunPoller fetch).2 = .ok .complete →
      (useRunPoller fetch).1 = .complete) ∧
    (fetch (useRunPoller fetch).2 = .ok .error →
      (useRunPoller fetch).1 = .error) ∧
    (nonTerminal (fetch (useRunPoller fetch).2) = true →
      (useRunPoller fetch).1 = .timeout ∧ (useRunPoller fetch).2 = MAX_POLLS) := by
  have heq : pollFrom fetch MAX_POLLS 0
      = ((useRunPoller fetch).1, (useRunPoller fetch).2) := by
    rw [useRunPoller]
  have h := pollFrom_spec fetch MAX_POLLS 0 (useRunPoller fetch).1
    (useRunPoller fetch).2 (by simp) (by simp [MAX_POLLS]) heq
  exact h

/-- Witness for C8 at the constant `running` fetch: the poller times out at
exactly 60 polls. -/
theorem useRunPoller_terminates_witness :
    nonTerminal ((fun _ => FetchResult.ok .running)
        (useRunPoller (fun _ => FetchResult.ok .running)).2) = true ∧
    ((useRunPoller (fun _ => FetchResult.ok .running)).1 = .timeout ∧
      (useRunPoller (fun _ => FetchResult.ok .running)).2 = MAX_POLLS) :=
  ⟨by decide,
    (useRunPoller_terminates (fun _ => FetchResult.ok .running)).2.2.2.2.2.2
      (by decide)⟩

/-- User role, from `lib/types.ts` (`User.role`):
`'coach' | 'coachee' | 'admin'`. -/
inductive Role where
  | coach
  | coachee
  | admin
deriving DecidableEq, Repr

/-- The role-based branch of `AuthCallbackPage`: `router.push('/coach')` for
coaches, `'/admin'` for admins, `'/client'` otherwise. -/
def roleDestination : Role → String
  | .coach => "/coach"
  | .admin => "/admin"
  | .coachee => "/client"

/-- `String.prototype.startsWith` as used by the auth callback page,
modelled as a prefix check on the character list (kernel-reducible). -/
def strStartsWith (s pre : String) : Bool :=
  pre.data.isPrefixOf s.data

/-- The navigation decision of `AuthCallbackPage` (auth callback page source):
`api.me()` resolving to a user reads `return_to` from the query string; when
it is truthy (non-null, non-empty) and starts with `'/'` it is pushed,
otherwise a fixed role destination is pushed; a rejected `api.me()` pushes
`'/'`. -/
def authCallbackDestination (returnTo : Option String) (me : Except Unit Role) :
    String :=
  match me with
  | .error _ => "/"
  | .ok role =>
    match returnTo with
    | some rt => if rt != "" && strStartsWith rt "/" then rt else roleDestination role
    | none => roleDestination role

example : authCallbackDestination (some "/client/runs/7") (.ok .coachee)
    = "/client/runs/7" := by decide
example : authCallbackDestination (some "https://evil.example") (.ok .coachee)
    = "/client" := by decide
example : authCallbackDestination (some "/x") (.error ()) = "/" := by decide

/-- A string starting with `"/"` is non-empty. -/
theorem startsWith_slash_ne_empty (s : String) (h : strStartsWith s "/" = true) :
    (s != "") = true := by
  cases hs : s == ""
  · simp [bne, hs]
  · have : s = "" := eq_of_beq hs
    subst this
    exact absurd h (by decide)

/-- C9: on the auth callback page, navigation goes to `return_to` only when
it starts with `'/'`: a fetched user together with a slash-prefixed
`return_to` navigates to that value; when `return_to` is absent or does not
start with `'/'` navigation goes to one of the fixed destinations
`/coach`, `/admin`, `/client`; and a failed user fetch navigates to `/`. -/
theorem authCallback_returnTo_guard (returnTo : Option String)
    (me : Except Unit Role) :
    (∀ e, me = .error e → authCallbackDestination returnTo me = "/") ∧
    (∀ role, me = .ok role →
      (∀ rt, returnTo = some rt → strStartsWith rt "/" = true →
        authCallbackDestination returnTo me = rt) ∧
      ((∀ rt, returnTo = some rt → strStartsWith rt "/" = false) →
        authCallbackDestination returnTo me
          ∈ (["/coach", "/admin", "/client"] : List String))) := by
  constructor
  · rintro e rfl
    rfl
  · rintro role rfl
    constructor
    · rintro rt rfl hsw
      have hne := startsWith_slash_ne_empty rt hsw
      simp [authCallbackDestination, hne, hsw]
    · intro hall
      cases returnTo with
      | none =>
        cases role <;> simp [authCallbackDestination, roleDestination]
      | some rt =>
        have hsw := hall rt rfl
        cases role <;> simp [authCallbackDestination, roleDestination, hsw]

/-- Witness for C9: a slash-prefixed `return_to` is honoured, an absolute
URL is ignored in favour of the role destination, and a failed fetch lands
on `/`. -/
theorem authCallback_returnTo_guard_witness :
    authCallbackDestination (some "/client/runs/7") (.ok .coachee)
      = "/client/runs/7" ∧
    authCallbackDestination (some "https://evil.example") (.ok .coach)
      ∈ (["/coach", "/admin", "/client"] : List String) ∧
    authCallbackDestination (some "/x") (.error ()) = "/" :=
  ⟨((authCallback_returnTo_guard (some "/client/runs/7") (.ok .coachee)).2
      .coachee rfl).1 "/client/runs/7" rfl (by decide),
   ((authCallback_returnTo_guard (some "https://evil.example") (.ok .coach)).2
      .coach rfl).2 (fun rt h => by cases h; decide),
   (authCallback_returnTo_guard (some "/x") (.error ())).1 () rfl⟩

/-- `TargetRole` from `lib/types.ts`:
`'chair' | 'presenter' | 'participant' | 'manager_1to1' | 'report_1to1'`. -/
inductive TargetRole where
  | chair
  | presenter
  | participant
  | manager_1to1
  | report_1to1
deriving DecidableEq, Repr

/-- `TranscriptConfig` from `components/TranscriptUpload.tsx` (duplicated in
`app/client/analyze/page.tsx`): `target_speaker_label : string | null` is an
`Option String`; `target_role : TargetRole | ''` is an `Option TargetRole`
with `none` standing for the empty-string "unselected" value. -/
structure TranscriptConfig where
  transcript_id : String
  speaker_labels : List String
  target_speaker_label : Option String
  target_speaker_name : String
  target_role : Option TargetRole
deriving DecidableEq, Repr

/-- JavaScript truthiness of a `string | null` value: `null` and `''` are
falsy. -/
def optStrTruthy : Option String → Bool
  | none => false
  | some s => s != ""

/-- The guard inside `TranscriptUploadPanel.update`
(`components/TranscriptUpload.tsx`): after merging a patch into `next`,
`onComplete(next)` fires exactly when `next.target_speaker_label`,
`next.target_role` and `next.target_speaker_name` are all truthy.  Returns
the config delivered to `onComplete`, or `none` when it does not fire. -/
def fireOnComplete (next : TranscriptConfig) : Option TranscriptConfig :=
  if optStrTruthy next.target_speaker_label && next.target_role.isSome &&
      (next.target_speaker_name != "") then
    some next
  else
    none

/-- The request body of `api.enqueueSingleMeeting` (`lib/api.ts`). -/
structure EnqueueSingleMeetingBody where
  transcript_id : String
  target_speaker_name : String
  target_speaker_label : String
  target_role : TargetRole
deriving DecidableEq, Repr

/-- `handleSubmit` from `app/client/analyze/page.tsx`: returns early when
`!config?.target_speaker_label || !config.target_role`, otherwise calls
`api.enqueueSingleMeeting` with the body built from `config`.  Returns the
body sent, or `none` when no request is made. -/
def handleSubmit (config : Option TranscriptConfig) :
    Option EnqueueSingleMeetingBody :=
  match config with
  | none => none
  | some c =>
    match c.target_speaker_label, c.target_role with
    | some lbl, some role =>
        if lbl != "" then
          some { transcript_id := c.transcript_id,
                 target_speaker_name := c.target_speaker_name,
                 target_speaker_label := lbl,
                 target_role := role }
        else
          none
    | some _, none => none
    | none, _ => none

example :
    handleSubmit (some ⟨"t1", ["S1", "S2"], some "S1", "Sarah", some .chair⟩)
      = some ⟨"t1", "Sarah", "S1", .chair⟩ := by decide
example : handleSubmit (some ⟨"t1", ["S1"], some "S1", "Sarah", none⟩)
    = none := by decide
example : fireOnComplete ⟨"t1", ["S1"], some "S1", "", some .chair⟩
    = none := by decide

/-- C10: the analyze page sends the single-meeting enqueue request only with
all three target fields non-empty: a config delivered by
`TranscriptUploadPanel`'s `onComplete` always yields a request whose speaker
label and speaker name are non-empty (the role is a `TargetRole` by type),
and `handleSubmit` on its own never sends a request with an empty speaker
label or an unset role. -/
theorem analyzeSubmit_fields_nonempty :
    (∀ next cfg, fireOnComplete next = some cfg →
      ∃ body, handleSubmit (some cfg) = some body ∧
        body.target_speaker_label ≠ "" ∧ body.target_speaker_name ≠ "") ∧
    (∀ config body, handleSubmit config = some body →
      body.target_speaker_label ≠ "") := by
  constructor
  · intro next cfg h
    by_cases hg : (optStrTruthy next.target_speaker_label &&
        next.target_role.isSome && (next.target_speaker_name != "")) = true
    · rw [fireOnComplete, if_pos hg] at h
      obtain rfl : next = cfg := Option.some.injEq .. ▸ h
      simp only [Bool.and_eq_true] at hg
      obtain ⟨⟨hlab, hrole⟩, hname⟩ := hg
      cases hl : next.target_speaker_label with
      | none => rw [hl] at hlab; cases hlab
      | some lbl =>
        cases hr : next.target_role with
        | none => rw [hr] at hrole; cases hrole
        | some role =>
          rw [hl] at hlab
          have hlb : (lbl != "") = true := hlab
          refine ⟨⟨next.transcript_id, next.target_speaker_name, lbl, role⟩,
            ?_, ?_, ?_⟩
          · simp [handleSubmit, hl, hr, hlb]
          · exact bne_iff_ne.mp hlb
          · exact bne_iff_ne.mp hname
    · rw [fireOnComplete, if_neg hg] at h
      cases h
  · intro config body h
    cases config with
    | none => cases h
    | some c =>
      cases hl : c.target_speaker_label with
      | none => simp [handleSubmit, hl] at h
      | some lbl =>
        cases hr : c.target_role with
        | none => simp [handleSubmit, hl, hr] at h
        | some role =>
          by_cases hlb : (lbl != "") = true
          · rw [handleSubmit] at h
            rw [hl, hr] at h
            dsimp only at h
            rw [if_pos hlb] at h
            obtain rfl : (⟨c.transcript_id, c.target_speaker_name, lbl, role⟩ :
                EnqueueSingleMeetingBody) = body := Option.some.injEq .. ▸ h
            exact bne_iff_ne.mp hlb
          · rw [handleSubmit] at h
            rw [hl, hr] at h
            dsimp only at h
            rw [if_neg hlb] at h
            cases h

/-- Witness for C10: a fully filled-in panel config produces a request with
non-empty speaker label and name, and a direct submit never carries an empty
label. -/
theorem analyzeSubmit_fields_nonempty_witness :
    (∃ body,
      handleSubmit (some ⟨"t1", ["S1", "S2"], some "S1", "Sarah", some .chair⟩)
        = some body ∧
      body.target_speaker_label ≠ "" ∧ body.target_speaker_name ≠ "") ∧
    (⟨"t1", "Sarah", "S1", TargetRole.chair⟩ :
        EnqueueSingleMeetingBody).target_speaker_label ≠ "" :=
  ⟨analyzeSubmit_fields_nonempty.1
      ⟨"t1", ["S1", "S2"], some "S1", "Sarah", some .chair⟩
      ⟨"t1", ["S1", "S2"], some "S1", "Sarah", some .chair⟩ (by decide),
   analyzeSubmit_fields_nonempty.2
      (some ⟨"t1", ["S1", "S2"], some "S1", "Sarah", some .chair⟩)
      ⟨"t1", "Sarah", "S1", TargetRole.chair⟩ (by decide)⟩

/-- `QuoteObject` from `lib/types.ts`. -/
structure QuoteObject where
  speaker_label : Option String
  quote_text : String
  meeting_id : Option String
  transcript_id : Option String
  span_id : Option String
deriving DecidableEq, Repr

/-- `CoachingItem` from `lib/types.ts`. -/
structure CoachingItem where
  pattern_id : String
  message : String
  quotes : List QuoteObject
deriving DecidableEq, Repr

/-- `MicroExperiment` from `lib/types.ts`. -/
structure MicroExperiment where
  experiment_id : String
  title : String
  instruction : String
  success_marker : String
  pattern_id : String
  quotes : List QuoteObject
deriving DecidableEq, Repr

/-- `PatternItem` from the `PatternSnapshot` component source: statuses are
strings (`evaluable`, `not_evaluable`, `insufficient_signal`); the numeric
`ratio` is kept as an optional rational — the claims below only inspect its
presence. -/
structure PatternItem where
  pattern_id : String
  evaluable_status : String
  numerator : Option Int
  denominator : Option Int
  ratio : Option Rat
  balance_assessment : Option String
  tier : Option Nat
deriving DecidableEq, Repr

/-- The structured coaching output carried by a Run, per the `RunStatus` DTO
in `lib/types.ts` (strengths list, optional focus item, optional
micro-experiment, optional pattern-snapshot list). -/
structure CoachingOutput where
  strengths : List CoachingItem
  focus : Option CoachingItem
  micro_experiment : Option MicroExperiment
  pattern_snapshot : Option (List PatternItem)
deriving DecidableEq, Repr

/-- ValidationIssue record (spec data model: field path, rule violated,
observed value class). -/
structure ValidationIssue where
  field_path : String
  rule : String
  observed : String
deriving DecidableEq, Repr

/-- Whether a quote references a speaker label present in the transcript's
speaker set; a `null` label counts as absent. -/
def quoteGrounded (speakers : List String) (q : QuoteObject) : Bool :=
  match q.speaker_label with
  | none => false
  | some l => decide (l ∈ speakers)

/-- Modelled from the spec: Gate-1 quote check (§4.4, `gate1_validator.py`
is not among the visible sources) — each quote must reference a speaker
label that appears in the transcript's speaker set (no fabricated speaker).
Returns the issues for one quote. -/
def quoteIssues (speakers : List String) (path : String) (q : QuoteObject) :
    List ValidationIssue :=
  match q.speaker_label with
  | none => [⟨path, "speaker_in_transcript", "null_speaker"⟩]
  | some l =>
      if l ∈ speakers then [] else [⟨path, "speaker_in_transcript", "unknown_speaker"⟩]

/-- Modelled from the spec: Gate-1 evidentiary grounding for one coaching
item or micro-experiment (§4.4) — it must carry at least one quote object,
and each quote must pass `quoteIssues`. -/
def groundingIssues (speakers : List String) (path : String)
    (quotes : List QuoteObject) : List ValidationIssue :=
  (if quotes.isEmpty then [⟨path, "missing_evidence", "zero_quotes"⟩] else [])
    ++ quotes.flatMap (quoteIssues speakers path)

/-- Modelled from the spec: Gate-1 pattern-snapshot consistency for one
entry (§4.4) — `not_evaluable` and `insufficient_signal` statuses must not
carry a `ratio`; an `evaluable` entry with no `balance_assessment` must
carry a non-null `ratio`. -/
def snapshotEntryIssues (e : PatternItem) : List ValidationIssue :=
  (if (e.evaluable_status = "not_evaluable" ∨
        e.evaluable_status = "insufficient_signal") ∧ e.ratio ≠ none then
    [⟨"pattern_snapshot", "ratio_forbidden", e.evaluable_status⟩]
  else [])
  ++ (if e.evaluable_status = "evaluable" ∧ e.balance_assessment = none ∧
        e.ratio = none then
    [⟨"pattern_snapshot", "ratio_required", e.evaluable_status⟩]
  else [])

/-- Modelled from the spec: the Gate-1 Schema Validator (§4.4), a pure
function from the model response and the transcript's speaker set to a list
of typed issues; structural conformance is carried by the `CoachingOutput`
type itself. -/
def gate1Issues (speakers : List String) (out : CoachingOutput) :
    List ValidationIssue :=
  out.strengths.flatMap (fun i => groundingIssues speakers "strengths" i.quotes)
  ++ (match out.focus with
      | some i => groundingIssues speakers "focus" i.quotes
      | none => [])
  ++ (match out.micro_experiment with
      | some m => groundingIssues speakers "micro_experiment" m.quotes
      | none => [])
  ++ (match out.pattern_snapshot with
      | some es => es.flatMap snapshotEntryIssues
      | none => [])

/-- Modelled from the spec: the boolean Gate-1 verdict — pass iff no issue. -/
def gate1Pass (speakers : List String) (out : CoachingOutput) : Bool :=
  (gate1Issues speakers out).isEmpty

/-- A sample quote used by the concrete checks below. -/
def sampleQuote : QuoteObject := ⟨some "S1", "let us decide now", none, none, none⟩

example : gate1Pass ["S1"] ⟨[⟨"decision_closure", "m", [sampleQuote]⟩], none, none, none⟩
    = true := by decide
example : gate1Pass ["S1"] ⟨[⟨"decision_closure", "m", []⟩], none, none, none⟩
    = false := by decide
example : gate1Pass ["S2"] ⟨[⟨"decision_closure", "m", [sampleQuote]⟩], none, none, none⟩
    = false := by decide

/-- Any member of the issue list refutes the boolean verdict. -/
theorem gate1Pass_false_of_issue (speakers : List String) (out : CoachingOutput)
    (i : ValidationIssue) (h : i ∈ gate1Issues speakers out) :
    gate1Pass speakers out = false := by
  rw [gate1Pass]
  cases hg : gate1Issues speakers out with
  | nil => rw [hg] at h; cases h
  | cons a l => rfl

/-- An ungrounded quote always contributes an issue. -/
theorem quoteIssues_ne_nil (speakers : List String) (path : String)
    (q : QuoteObject) (h : quoteGrounded speakers q = false) :
    quoteIssues speakers path q ≠ [] := by
  cases hq : q.speaker_label with
  | none => simp [quoteIssues, hq]
  | some l =>
    rw [quoteGrounded, hq] at h
    have hmem : l ∉ speakers := of_decide_eq_false h
    simp [quoteIssues, hq, hmem]

/-- C3: Gate-1 evidentiary grounding — any strength or focus item with zero
quotes fails validation, a micro-experiment with zero quotes fails
validation, and any quote (in a strength, the focus item, or the
micro-experiment) whose speaker label is absent from the transcript's
speaker set fails validation. -/
theorem gate1_grounding (speakers : List String) (out : CoachingOutput) :
    (∀ item, (item ∈ out.strengths ∨ out.focus = some item) → item.quotes = [] →
      gate1Pass speakers out = false) ∧
    (∀ m, out.micro_experiment = some m → m.quotes = [] →
      gate1Pass speakers out = false) ∧
    (∀ q, ((∃ item, (item ∈ out.strengths ∨ out.focus = some item) ∧
          q ∈ item.quotes) ∨
        (∃ m, out.micro_experiment = some m ∧ q ∈ m.quotes)) →
      quoteGrounded speakers q = false → gate1Pass speakers out = false) := by
  refine ⟨?_, ?_, ?_⟩
  · intro item hitem hq
    rcases hitem with hs | hf
    · refine gate1Pass_false_of_issue speakers out
        ⟨"strengths", "missing_evidence", "zero_quotes"⟩ ?_
      simp only [gate1Issues, List.mem_append]
      exact Or.inl (Or.inl (Or.inl (List.mem_flatMap.mpr
        ⟨item, hs, by simp [groundingIssues, hq]⟩)))
    · refine gate1Pass_false_of_issue speakers out
        ⟨"focus", "missing_evidence", "zero_quotes"⟩ ?_
      simp only [gate1Issues, List.mem_append, hf]
      exact Or.inl (Or.inl (Or.inr (by simp [groundingIssues, hq])))
  · intro m hm hq
    refine gate1Pass_false_of_issue speakers out
      ⟨"micro_experiment", "missing_evidence", "zero_quotes"⟩ ?_
    simp only [gate1Issues, List.mem_append, hm]
    exact Or.inl (Or.inr (by simp [groundingIssues, hq]))
  · intro q hq hground
    rcases hq with ⟨item, hitem, hqmem⟩ | ⟨m, hm, hqmem⟩
    · rcases hitem with hs | hf
      · obtain ⟨i, hi⟩ := List.exists_mem_of_ne_nil _
          (quoteIssues_ne_nil speakers "strengths" q hground)
        refine gate1Pass_false_of_issue speakers out i ?_
        simp only [gate1Issues, List.mem_append]
        exact Or.inl (Or.inl (Or.inl (List.mem_flatMap.mpr ⟨item, hs, by
          simp only [groundingIssues, List.mem_append]
          exact Or.inr (List.mem_flatMap.mpr ⟨q, hqmem, hi⟩)⟩)))
      · obtain ⟨i, hi⟩ := List.exists_mem_of_ne_nil _
          (quoteIssues_ne_nil speakers "focus" q hground)
        refine gate1Pass_false_of_issue speakers out i ?_
        simp only [gate1Issues, List.mem_append, hf]
        refine Or.inl (Or.inl (Or.inr ?_))
        simp only [groundingIssues, List.mem_append]
        exact Or.inr (List.mem_flatMap.mpr ⟨q, hqmem, hi⟩)
    · obtain ⟨i, hi⟩ := List.exists_mem_of_ne_nil _
        (quoteIssues_ne_nil speakers "micro_experiment" q hground)
      refine gate1Pass_false_of_issue speakers out i ?_
      simp only [gate1Issues, List.mem_append, hm]
      refine Or.inl (Or.inr ?_)
      simp only [groundingIssues, List.mem_append]
      exact Or.inr (List.mem_flatMap.mpr ⟨q, hqmem, hi⟩)

/-- Witness for C3: a strengths item with zero quotes is rejected, and a
quote attributed to a speaker outside the transcript's speaker set is
rejected. -/
theorem gate1_grounding_witness :
    gate1Pass ["S1"] ⟨[⟨"decision_closure", "m", []⟩], none, none, none⟩
      = false ∧
    gate1Pass ["S2"] ⟨[⟨"decision_closure", "m", [sampleQuote]⟩], none, none,
      none⟩ = false :=
  ⟨(gate1_grounding ["S1"] ⟨[⟨"decision_closure", "m", []⟩], none, none,
      none⟩).1 ⟨"decision_closure", "m", []⟩ (Or.inl (by decide)) rfl,
   (gate1_grounding ["S2"] ⟨[⟨"decision_closure", "m", [sampleQuote]⟩], none,
      none, none⟩).2.2 sampleQuote
      (Or.inl ⟨⟨"decision_closure", "m", [sampleQuote]⟩, Or.inl (by decide),
        by decide⟩) (by decide)⟩

/-- C4: pattern snapshot consistency in a Gate-1-passing output — an entry
with `evaluable_status` of `not_evaluable` or `insufficient_signal` carries
no `ratio`, and an `evaluable` entry with no `balance_assessment` carries a
non-null `ratio`. -/
theorem gate1_snapshot_consistency (speakers : List String)
    (out : CoachingOutput) (entries : List PatternItem)
    (hpass : gate1Pass speakers out = true)
    (hsnap : out.pattern_snapshot = some entries) :
    ∀ e ∈ entries,
      ((e.evaluable_status = "not_evaluable" ∨
        e.evaluable_status = "insufficient_signal") → e.ratio = none) ∧
      (e.evaluable_status = "evaluable" → e.balance_assessment = none →
        e.ratio ≠ none) := by
  intro e he
  have hnil : gate1Issues speakers out = [] := by
    rw [gate1Pass] at hpass
    exact List.isEmpty_iff.mp hpass
  rw [gate1Issues, hsnap] at hnil
  have h4 : entries.flatMap snapshotEntryIssues = [] :=
    (List.append_eq_nil.mp hnil).2
  have hee : snapshotEntryIssues e = [] := by
    by_contra hne
    obtain ⟨i, hi⟩ := List.exists_mem_of_ne_nil _ hne
    have hin : i ∈ entries.flatMap snapshotEntryIssues :=
      List.mem_flatMap.mpr ⟨e, he, hi⟩
    rw [h4] at hin
    cases hin
  constructor
  · intro hstat
    by_contra hratio
    have hc : (e.evaluable_status = "not_evaluable" ∨
        e.evaluable_status = "insufficient_signal") ∧ e.ratio ≠ none :=
      ⟨hstat, hratio⟩
    rw [snapshotEntryIssues, if_pos hc] at hee
    simp at hee
  · intro hstat hbal hratio
    have hc : e.evaluable_status = "evaluable" ∧
        e.balance_assessment = none ∧ e.ratio = none := ⟨hstat, hbal, hratio⟩
    rw [snapshotEntryIssues, if_pos hc] at hee
    obtain ⟨-, h2⟩ := List.append_eq_nil.mp hee
    cases h2

/-- A sample Gate-1-passing output with a pattern snapshot, used by the
concrete checks below. -/
def snapshotOut : CoachingOutput :=
  ⟨[⟨"decision_closure", "m", [sampleQuote]⟩], none, none,
    some [⟨"turn_allocation", "evaluable", none, none, some 1, none, none⟩,
          ⟨"agenda_clarity", "not_evaluable", none, none, none, none, none⟩]⟩

example : gate1Pass ["S1"] snapshotOut = true := by decide

/-- Witness for C4: in the sample passing output, the `evaluable` entry with
no balance assessment indeed carries a ratio. -/
theorem gate1_snapshot_consistency_witness :
    (⟨"turn_allocation", "evaluable", none, none, some 1, none,
      none⟩ : PatternItem).ratio ≠ none :=
  (gate1_snapshot_consistency ["S1"] snapshotOut
      [⟨"turn_allocation", "evaluable", none, none, some 1, none, none⟩,
       ⟨"agenda_clarity", "not_evaluable", none, none, none, none, none⟩]
      (by decide) rfl
      ⟨"turn_allocation", "evaluable", none, none, some 1, none, none⟩
      (by decide)).2 rfl rfl

/-- Structured error payload of a failed Run (spec 4.2 / 7: kind +
human-readable message, never a raw trace). -/
structure ErrorPayload where
  kind : String
  message : String
deriving DecidableEq, Repr

/-- The Run record (spec data model 3; field shapes follow the `RunStatus`
DTO in `lib/types.ts` plus the `Idempotency Key` field of
`airtable_migration_diff.md`). -/
structure Run where
  run_id : Nat
  idempotency_key : String
  status : RunStatusKind
  gate1_pass : Option Bool
  analysis_type : String
  output : Option CoachingOutput
  issues : List ValidationIssue
  error : Option ErrorPayload
deriving DecidableEq, Repr

/-- Experiment status, from `lib/types.ts` (`Experiment.status`):
`'none' | 'assigned' | 'active' | 'completed' | 'abandoned'`. -/
inductive ExperimentStatus where
  | none
  | assigned
  | active
  | completed
  | abandoned
deriving DecidableEq, Repr

/-- The Experiment record (`Experiment` DTO in `lib/types.ts` plus the
`Created From Run ID` idempotency field of `airtable_migration_diff.md`). -/
structure Experiment where
  experiment_record_id : Nat
  experiment_id : String
  title : String
  instruction : String
  success_marker : String
  pattern_id : String
  status : ExperimentStatus
  created_from_run_id : Nat
deriving DecidableEq, Repr

/-- The record-store slice touched by the single-meeting engine. -/
structure EngineStore where
  runs : List Run
  experiments : List Experiment
deriving DecidableEq, Repr

/-- Outcome of one model invocation as distinguished by the engine (spec 6
and 7): transport failure, parse failure (response not well-formed data at
all), or a parsed candidate output (schema-validity is Gate-1's job). -/
inductive ModelResult where
  | transportFailure (message : String)
  | parseFailure (message : String)
  | parsed (out : CoachingOutput)
deriving DecidableEq, Repr

/-- A single-meeting analysis request (spec data model 3, RunRequest). -/
structure SingleMeetingRequest where
  transcript_id : String
  coachee_id : String
  target_speaker_label : String
  target_speaker_name : String
  target_role : String
  config_version : String
deriving DecidableEq, Repr

/-- Modelled from the spec: the Idempotency Key Deriver (spec 4.1;
`airtable_migration_diff.md`: SHA-256 of (transcript_id, analysis_type,
coachee_id, target_speaker_label, target_role, config_version); the deriving
code is not under src/).  The hash is modelled as a deterministic
field-separated encoding of the same tuple: the claims rely only on the key
being a pure function of these six inputs, with no random or time
component. -/
def deriveIdempotencyKey (transcript_id analysis_type coachee_id
    target_speaker_label target_role config_version : String) : String :=
  transcript_id ++ "|" ++ analysis_type ++ "|" ++ coachee_id ++ "|" ++
    target_speaker_label ++ "|" ++ target_role ++ "|" ++ config_version

/-- The idempotency key of a single-meeting request. -/
def requestKey (req : SingleMeetingRequest) : String :=
  deriveIdempotencyKey req.transcript_id "single_meeting" req.coachee_id
    req.target_speaker_label req.target_role req.config_version

/-- Whether an experiment was instantiated from the given run id (the
`Created From Run ID` idempotency check). -/
def createdFromRun (rid : Nat) (e : Experiment) : Bool :=
  e.created_from_run_id == rid

/-- Modelled from the spec: the Experiment Instantiator (spec 4.7;
`core/workers.py:_instantiate_experiment_if_needed` is not under src/).
Given a Run with `gate1_pass=true` and a non-null micro-experiment
candidate, idempotently create an Experiment keyed by created-from-run-id —
if one already references this run id, return it unchanged; new Experiments
start in status `assigned`.  Returns the store and the experiment
returned to the caller (none when the run does not qualify). -/
def instantiateExperiment (s : EngineStore) (run : Run) :
    EngineStore × Option Experiment :=
  if run.gate1_pass = some true then
    match run.output with
    | some out =>
      match out.micro_experiment with
      | some m =>
        match s.experiments.find? (createdFromRun run.run_id) with
        | some e => (s, some e)
        | none =>
          let e : Experiment :=
            { experiment_record_id := s.experiments.length,
              experiment_id := m.experiment_id,
              title := m.title,
              instruction := m.instruction,
              success_marker := m.success_marker,
              pattern_id := m.pattern_id,
              status := .assigned,
              created_from_run_id := run.run_id }
          ({ s with experiments := s.experiments ++ [e] }, some e)
      | none => (s, none)
    | none => (s, none)
  else (s, none)

/-- Modelled from the spec: the terminal Run record produced by one executed
single-meeting job (spec 4.2 state machine and 7 error taxonomy):
transport/parse failures yield status `error` with a structured payload;
a parsed response is gated, yielding status `complete` with
`gate1_pass=true` (no issues) or `gate1_pass=false` (issues attached). -/
def executedRun (rid : Nat) (key : String) (speakers : List String)
    (model : ModelResult) : Run :=
  match model with
  | .transportFailure msg =>
      { run_id := rid, idempotency_key := key, status := .error,
        gate1_pass := none, analysis_type := "single_meeting", output := none,
        issues := [], error := some ⟨"TransportFailure", msg⟩ }
  | .parseFailure msg =>
      { run_id := rid, idempotency_key := key, status := .error,
        gate1_pass := none, analysis_type := "single_meeting", output := none,
        issues := [], error := some ⟨"ParseFailure", msg⟩ }
  | .parsed out =>
      if (gate1Issues speakers out).isEmpty then
        { run_id := rid, idempotency_key := key, status := .complete,
          gate1_pass := some true, analysis_type := "single_meeting",
          output := some out, issues := [], error := none }
      else
        { run_id := rid, idempotency_key := key, status := .complete,
          gate1_pass := some false, analysis_type := "single_meeting",
          output := some out, issues := gate1Issues speakers out,
          error := none }

/-- Modelled from the spec: the Single-Meeting Processor (spec 4.5;
`core/workers.py:process_single_meeting_analysis` is not under src/).
Derive the idempotency key; if a Run already exists for that key,
short-circuit to the existing run id with no model call; otherwise create
the Run, invoke the model once, gate the response, persist the terminal
record, and — only on `gate1_pass=true` — run the Experiment Instantiator as
a side effect.  The model invocation is the oracle value `model`; the
returned triple is (store, resolved run id, number of model invocations). -/
def processSingleMeeting (s : EngineStore) (req : SingleMeetingRequest)
    (speakers : List String) (model : ModelResult) :
    EngineStore × Nat × Nat :=
  let key := requestKey req
  match s.runs.find? (fun r => r.idempotency_key == key) with
  | some r => (s, r.run_id, 0)
  | none =>
    let rid := s.runs.length
    let run := executedRun rid key speakers model
    let s1 : EngineStore := { s with runs := s.runs ++ [run] }
    if run.gate1_pass = some true then
      ((instantiateExperiment s1 run).1, rid, 1)
    else
      (s1, rid, 1)

/-- A sample request used by the concrete checks below. -/
def sampleRequest : SingleMeetingRequest :=
  ⟨"t1", "u1", "S1", "Sarah", "chair", "cfg1"⟩

/-- A sample Gate-1-passing output with a micro-experiment candidate. -/
def passingOut : CoachingOutput :=
  ⟨[⟨"decision_closure", "m", [sampleQuote]⟩],
   none,
   some ⟨"exp_pause", "Pause", "Pause before deciding", "fewer interruptions",
     "turn_allocation", [sampleQuote]⟩,
   none⟩

example :
    (processSingleMeeting ⟨[], []⟩ sampleRequest ["S1"]
      (.parsed passingOut)).2 = (0, 1) := by decide
example :
    ((processSingleMeeting ⟨[], []⟩ sampleRequest ["S1"]
      (.parsed passingOut)).1.experiments.map (·.status))
      = [.assigned] := by decide
example :
    (processSingleMeeting
      (processSingleMeeting ⟨[], []⟩ sampleRequest ["S1"]
        (.parsed passingOut)).1
      sampleRequest ["S1"] (.parsed passingOut)).2 = (0, 0) := by decide

/-- `find?` skips a prefix in which nothing matches. -/
theorem find?_append_left_none {α : Type} (p : α → Bool) (l1 l2 : List α)
    (h : l1.find? p = none) : (l1 ++ l2).find? p = l2.find? p := by
  induction l1 with
  | nil => rfl
  | cons a t ih =>
    rw [List.cons_append]
    cases hpa : p a with
    | true => simp [List.find?_cons, hpa] at h
    | false =>
      simp only [List.find?_cons, hpa] at h ⊢
      exact ih h

/-- The executed Run always records the derived idempotency key. -/
theorem executedRun_key (rid : Nat) (key : String) (speakers : List String)
    (model : ModelResult) :
    (executedRun rid key speakers model).idempotency_key = key := by
  cases model with
  | transportFailure msg => rfl
  | parseFailure msg => rfl
  | parsed out =>
    rw [executedRun]
    split <;> rfl

/-- The executed Run always records the assigned run id. -/
theorem executedRun_id (rid : Nat) (key : String) (speakers : List String)
    (model : ModelResult) :
    (executedRun rid key speakers model).run_id = rid := by
  cases model with
  | transportFailure msg => rfl
  | parseFailure msg => rfl
  | parsed out =>
    rw [executedRun]
    split <;> rfl

/-- The Experiment Instantiator never touches the runs table. -/
theorem instantiateExperiment_runs (s : EngineStore) (run : Run) :
    (instantiateExperiment s run).1.runs = s.runs := by
  rw [instantiateExperiment]
  repeat' split
  all_goals rfl

/-- C1: single-meeting submission is idempotent — resubmitting the same
request (same transcript, coachee, speaker, role, config version, hence the
same deterministic idempotency key) resolves to the first submission's run
id, performs zero model invocations, leaves the store untouched, and when no
Run existed for the key beforehand the first submission leaves exactly one
Run for it. -/
theorem processSingleMeeting_idempotent (s : EngineStore)
    (req : SingleMeetingRequest) (speakers1 speakers2 : List String)
    (model1 model2 : ModelResult) :
    (processSingleMeeting (processSingleMeeting s req speakers1 model1).1
        req speakers2 model2).2.1
      = (processSingleMeeting s req speakers1 model1).2.1 ∧
    (processSingleMeeting (processSingleMeeting s req speakers1 model1).1
        req speakers2 model2).2.2 = 0 ∧
    (processSingleMeeting (processSingleMeeting s req speakers1 model1).1
        req speakers2 model2).1
      = (processSingleMeeting s req speakers1 model1).1 ∧
    (s.runs.find? (fun r => r.idempotency_key == requestKey req) = none →
      (processSingleMeeting s req speakers1 model1).1.runs.countP
        (fun r => r.idempotency_key == requestKey req) = 1) := by
  cases hfind : s.runs.find? (fun r => r.idempotency_key == requestKey req) with
  | some r =>
    have h1 : processSingleMeeting s req speakers1 model1 = (s, r.run_id, 0) := by
      simp only [processSingleMeeting, hfind]
    rw [h1]
    refine ⟨?_, ?_, ?_, fun h => by cases h⟩ <;>
      simp only [processSingleMeeting, hfind]
  | none =>
    have hkey := executedRun_key s.runs.length (requestKey req) speakers1 model1
    have hrid := executedRun_id s.runs.length (requestKey req) speakers1 model1
    rcases hP : processSingleMeeting s req speakers1 model1 with ⟨s1, rid1, c1⟩
    have hruns1 : s1.runs = s.runs ++
        [executedRun s.runs.length (requestKey req) speakers1 model1] := by
      have hpr := congrArg (fun p => p.1.runs) hP
      simp only at hpr
      rw [← hpr]
      simp only [processSingleMeeting, hfind]
      split
      · rw [instantiateExperiment_runs]
      · rfl
    have hid1 : rid1 = s.runs.length := by
      have hpr := congrArg (fun p => p.2.1) hP
      simp only at hpr
      rw [← hpr]
      simp only [processSingleMeeting, hfind]
      split <;> rfl
    have hfind2 : s1.runs.find? (fun r => r.idempotency_key == requestKey req)
        = some (executedRun s.runs.length (requestKey req) speakers1
            model1) := by
      rw [hruns1, find?_append_left_none _ _ _ hfind]
      simp [List.find?_cons, hkey]
    refine ⟨?_, ?_, ?_, fun _ => ?_⟩
    · show (processSingleMeeting s1 req speakers2 model2).2.1 = rid1
      simp only [processSingleMeeting, hfind2]
      rw [hrid, hid1]
    · show (processSingleMeeting s1 req speakers2 model2).2.2 = 0
      simp only [processSingleMeeting, hfind2]
    · show (processSingleMeeting s1 req speakers2 model2).1 = s1
      simp only [processSingleMeeting, hfind2]
    · show s1.runs.countP (fun r => r.idempotency_key == requestKey req) = 1
      rw [hruns1, List.countP_append]
      have hz : s.runs.countP (fun r => r.idempotency_key == requestKey req)
          = 0 :=
        List.countP_eq_zero.mpr (List.find?_eq_none.mp hfind)
      rw [hz]
      simp [List.countP_cons, hkey]

/-- Witness for C1: with an empty store, a first submission creates exactly
one Run for the derived key. -/
theorem processSingleMeeting_idempotent_witness :
    (⟨[], []⟩ : EngineStore).runs.find?
        (fun r => r.idempotency_key == requestKey sampleRequest) = none ∧
    (processSingleMeeting ⟨[], []⟩ sampleRequest ["S1"]
        (.parsed passingOut)).1.runs.countP
      (fun r => r.idempotency_key == requestKey sampleRequest) = 1 :=
  ⟨by decide,
   (processSingleMeeting_idempotent ⟨[], []⟩ sampleRequest ["S1"] ["S1"]
      (.parsed passingOut) (.parsed passingOut)).2.2.2 (by decide)⟩

/-- A sample output rejected by Gate-1: a strengths item with zero quotes
(the spec's schema-violation scenario). -/
def failOut : CoachingOutput := ⟨[⟨"decision_closure", "m", []⟩], none, none, none⟩

example : gate1Pass ["S1"] failOut = false := by decide

/-- C2: when the model response parses and Gate-1 executes and rejects it,
the executed Run reaches status `complete` (not `error`) with
`gate1_pass=false`, the ValidationIssues attached, and no Experiment
created; the store gains exactly that one terminal record. -/
theorem processSingleMeeting_gate1_reject (s : EngineStore)
    (req : SingleMeetingRequest) (speakers : List String)
    (out : CoachingOutput)
    (hfind : s.runs.find? (fun r => r.idempotency_key == requestKey req)
      = none)
    (hrej : gate1Issues speakers out ≠ []) :
    (processSingleMeeting s req speakers (.parsed out)).1.runs
      = s.runs ++ [executedRun s.runs.length (requestKey req) speakers
          (.parsed out)] ∧
    (executedRun s.runs.length (requestKey req) speakers
      (.parsed out)).status = .complete ∧
    (executedRun s.runs.length (requestKey req) speakers
      (.parsed out)).status ≠ .error ∧
    (executedRun s.runs.length (requestKey req) speakers
      (.parsed out)).gate1_pass = some false ∧
    (executedRun s.runs.length (requestKey req) speakers
      (.parsed out)).issues = gate1Issues speakers out ∧
    (executedRun s.runs.length (requestKey req) speakers
      (.parsed out)).issues ≠ [] ∧
    (processSingleMeeting s req speakers (.parsed out)).1.experiments
      = s.experiments := by
  have hie : (gate1Issues speakers out).isEmpty = false := by
    cases hg : gate1Issues speakers out with
    | nil => exact absurd hg hrej
    | cons a l => rfl
  have hrunEq : executedRun s.runs.length (requestKey req) speakers
      (.parsed out)
      = { run_id := s.runs.length, idempotency_key := requestKey req,
          status := .complete, gate1_pass := some false,
          analysis_type := "single_meeting", output := some out,
          issues := gate1Issues speakers out, error := none } := by
    rw [executedRun]
    simp [hie]
  have hproc : processSingleMeeting s req speakers (.parsed out)
      = ({ s with runs := s.runs ++ [executedRun s.runs.length
            (requestKey req) speakers (.parsed out)] }, s.runs.length, 1) := by
    simp only [processSingleMeeting, hfind]
    rw [if_neg]
    rw [hrunEq]
    simp
  refine ⟨?_, ?_, ?_, ?_, ?_, ?_, ?_⟩
  · rw [hproc]
  · rw [hrunEq]
  · rw [hrunEq]
    simp
  · rw [hrunEq]
  · rw [hrunEq]
  · rw [hrunEq]
    exact hrej
  · rw [hproc]

/-- Witness for C2 at the spec's schema-violation scenario: a zero-quote
strengths item yields a `complete` run with `gate1_pass=false`, a non-empty
issue list, and no experiment. -/
theorem processSingleMeeting_gate1_reject_witness :
    (processSingleMeeting ⟨[], []⟩ sampleRequest ["S1"]
        (.parsed failOut)).1.runs
      = [] ++ [executedRun ([] : List Run).length (requestKey sampleRequest)
          ["S1"] (.parsed failOut)] ∧
    (executedRun ([] : List Run).length (requestKey sampleRequest) ["S1"]
      (.parsed failOut)).status = .complete ∧
    (executedRun ([] : List Run).length (requestKey sampleRequest) ["S1"]
      (.parsed failOut)).status ≠ .error ∧
    (executedRun ([] : List Run).length (requestKey sampleRequest) ["S1"]
      (.parsed failOut)).gate1_pass = some false ∧
    (executedRun ([] : List Run).length (requestKey sampleRequest) ["S1"]
      (.parsed failOut)).issues = gate1Issues ["S1"] failOut ∧
    (executedRun ([] : List Run).length (requestKey sampleRequest) ["S1"]
      (.parsed failOut)).issues ≠ [] ∧
    (processSingleMeeting ⟨[], []⟩ sampleRequest ["S1"]
        (.parsed failOut)).1.experiments = [] :=
  processSingleMeeting_gate1_reject ⟨[], []⟩ sampleRequest ["S1"] failOut
    (by decide) (by decide)

/-- C7: experiment instantiation is idempotent per originating run id — for
a Run with `gate1_pass=true` and a non-null micro-experiment candidate: an
Experiment already referencing the run id is returned unchanged with no
duplicate created; otherwise exactly one Experiment is created, starting in
status `assigned` and keyed by the run id; when none existed the store ends
with exactly one matching Experiment; and re-running the instantiator is a
no-op returning the same experiment. -/
theorem instantiateExperiment_once (s : EngineStore) (run : Run)
    (hp : run.gate1_pass = some true)
    (hm : ∃ out m, run.output = some out ∧ out.micro_experiment = some m) :
    (∀ e, s.experiments.find? (createdFromRun run.run_id) = some e →
      instantiateExperiment s run = (s, some e)) ∧
    (s.experiments.find? (createdFromRun run.run_id) = none →
      ∃ ex, instantiateExperiment s run
          = ({ s with experiments := s.experiments ++ [ex] }, some ex) ∧
        ex.status = .assigned ∧ ex.created_from_run_id = run.run_id) ∧
    (s.experiments.countP (createdFromRun run.run_id) = 0 →
      (instantiateExperiment s run).1.experiments.countP
        (createdFromRun run.run_id) = 1) ∧
    instantiateExperiment (instantiateExperiment s run).1 run
      = instantiateExperiment s run := by
  obtain ⟨out, m, hout, hmic⟩ := hm
  cases hfe : s.experiments.find? (createdFromRun run.run_id) with
  | some e0 =>
    have heq : instantiateExperiment s run = (s, some e0) := by
      simp [instantiateExperiment, hp, hout, hmic, hfe]
    refine ⟨?_, ?_, ?_, ?_⟩
    · intro e he
      obtain rfl : e0 = e := Option.some.injEq .. ▸ he
      exact heq
    · intro h
      exact Option.noConfusion h
    · intro hcount
      have hpe := List.find?_some hfe
      have hmem := List.mem_of_find?_eq_some hfe
      exact absurd hpe (List.countP_eq_zero.mp hcount e0 hmem)
    · rw [heq]
      exact heq
  | none =>
    obtain ⟨ex, hex⟩ : ∃ ex : Experiment,
        ex = { experiment_record_id := s.experiments.length,
               experiment_id := m.experiment_id,
               title := m.title,
               instruction := m.instruction,
               success_marker := m.success_marker,
               pattern_id := m.pattern_id,
               status := .assigned,
               created_from_run_id := run.run_id } := ⟨_, rfl⟩
    have heq : instantiateExperiment s run
        = ({ s with experiments := s.experiments ++ [ex] }, some ex) := by
      rw [hex]
      simp [instantiateExperiment, hp, hout, hmic, hfe]
    have hfind2 : (s.experiments ++ [ex]).find? (createdFromRun run.run_id)
        = some ex := by
      rw [find?_append_left_none _ _ _ hfe, hex]
      simp [List.find?_cons, createdFromRun]
    refine ⟨?_, ?_, ?_, ?_⟩
    · intro e he
      exact Option.noConfusion he
    · intro _
      exact ⟨ex, heq, by rw [hex], by rw [hex]⟩
    · intro hcount
      rw [heq]
      show (s.experiments ++ [ex]).countP (createdFromRun run.run_id) = 1
      rw [List.countP_append, hcount, hex]
      simp [List.countP_cons, createdFromRun]
    · rw [heq]
      show instantiateExperiment { s with experiments := s.experiments ++ [ex] }
          run = ({ s with experiments := s.experiments ++ [ex] }, some ex)
      simp [instantiateExperiment, hp, hout, hmic, hfind2]

/-- A sample completed, Gate-1-passing run carrying a micro-experiment
candidate. -/
def passRun : Run :=
  { run_id := 0, idempotency_key := requestKey sampleRequest,
    status := .complete, gate1_pass := some true,
    analysis_type := "single_meeting", output := some passingOut,
    issues := [], error := none }

/-- Witness for C7: instantiating from the sample passing run on an empty
store creates exactly one `assigned` Experiment keyed by the run id. -/
theorem instantiateExperiment_once_witness :
    ∃ ex, instantiateExperiment ⟨[], []⟩ passRun
        = ({ runs := [], experiments := [] ++ [ex] }, some ex) ∧
      ex.status = .assigned ∧ ex.created_from_run_id = passRun.run_id :=
  (instantiateExperiment_once ⟨[], []⟩ passRun rfl
    ⟨passingOut, _, rfl, rfl⟩).2.1 (by decide)

/-- Baseline pack status (spec data model 3):
`intake`, `building`, `baseline_ready`, `error`. -/
inductive PackStatus where
  | intake
  | building
  | baseline_ready
  | error
deriving DecidableEq, Repr

/-- A link from a pack to one already-completed single-meeting Run (spec
data model 3, BaselinePackItem). -/
structure BaselinePackItem where
  item_id : String
  run_id : Nat
deriving DecidableEq, Repr

/-- The BaselinePack record (spec data model 3; the build idempotency key
equals the pack id, `airtable_migration_diff.md` "Pack Build Idempotency
Key").  The role/meeting-type consistency metadata of spec 4.6 is omitted
here: no claim below depends on it. -/
structure BaselinePackRec where
  baseline_pack_id : String
  status : PackStatus
  items : List BaselinePackItem
  result : Option CoachingOutput
  issues : List String
deriving DecidableEq, Repr

/-- One recorded build attempt for a pack; its key equals the pack id. -/
structure PackBuild where
  build_key : String
  build_id : Nat
  job_id : Nat
deriving DecidableEq, Repr

/-- The record-store slice touched by the baseline-pack engine. -/
structure PackStore where
  runs : List Run
  packs : List BaselinePackRec
  builds : List PackBuild
deriving DecidableEq, Repr

/-- Whether a linked run satisfies the baseline precondition:
status `complete` and `gate1_pass=true` (spec 4.6). -/
def runQualifies (runs : List Run) (rid : Nat) : Bool :=
  match runs.find? (fun r => r.run_id == rid) with
  | some r => r.status == .complete && r.gate1_pass == some true
  | none => false

/-- Modelled from the spec: pick the candidate with the highest evidentiary
density (most quotes) for a slot, with the deterministic tie-break of
keeping the earliest candidate (spec 4.6). -/
def pickDensest {α : Type} (density : α → Nat) : List α → Option α
  | [] => none
  | x :: rest =>
    match pickDensest density rest with
    | none => some x
    | some b => if density b > density x then some b else some x

/-- Modelled from the spec: aggregate the three runs' coaching outputs into
one representative strengths/focus/micro-experiment selection (spec 4.6);
the most-quotes candidate wins each slot. -/
def aggregateOutputs (outs : List CoachingOutput) : CoachingOutput :=
  { strengths :=
      match pickDensest (fun i => i.quotes.length)
          (outs.flatMap (·.strengths)) with
      | some i => [i]
      | none => [],
    focus := pickDensest (fun i => i.quotes.length)
      (outs.filterMap (·.focus)),
    micro_experiment := pickDensest (fun m => m.quotes.length)
      (outs.filterMap (·.micro_experiment)),
    pattern_snapshot := none }

/-- Replace a pack record in the store by pack id. -/
def updatePack (packs : List BaselinePackRec) (packId : String)
    (newPack : BaselinePackRec) : List BaselinePackRec :=
  packs.map (fun p => if p.baseline_pack_id == packId then newPack else p)

/-- Outcome of one baseline-pack build request. -/
inductive BuildOutcome where
  | packNotFound
  | alreadyBuilt (b : PackBuild)
  | preconditionFailed (pack : BaselinePackRec)
  | built (b : PackBuild) (pack : BaselinePackRec)
deriving DecidableEq, Repr

/-- Modelled from the spec: the Baseline-Pack Processor (spec 4.6;
`core/workers.py:process_baseline_pack` is not under src/).  A second build
request for the same pack id hits the build idempotency key (equal to the
pack id) and is a no-op returning the first build's identifiers.  Otherwise
every item must reference a Run with status `complete` and
`gate1_pass=true`; if not, the pack transitions to `error` with an issue
enumerating the unsatisfied items and no aggregation is performed; if so,
the three outputs are aggregated and the pack reaches `baseline_ready`.
Returns (store, outcome, number of aggregation passes performed). -/
def processBaselinePackBuild (s : PackStore) (packId : String) :
    PackStore × BuildOutcome × Nat :=
  match s.packs.find? (fun p => p.baseline_pack_id == packId) with
  | none => (s, .packNotFound, 0)
  | some pack =>
    match s.builds.find? (fun b => b.build_key == packId) with
    | some b => (s, .alreadyBuilt b, 0)
    | none =>
      let unsatisfied := pack.items.filter
        (fun it => !(runQualifies s.runs it.run_id))
      if unsatisfied.isEmpty then
        let outs := pack.items.filterMap
          (fun it => (s.runs.find? (fun r => r.run_id == it.run_id)).bind
            (·.output))
        let newPack : BaselinePackRec :=
          { pack with
            status := .baseline_ready
            result := some (aggregateOutputs outs)
            issues := [] }
        let b : PackBuild :=
          { build_key := packId, build_id := s.builds.length,
            job_id := s.builds.length }
        ({ s with
            packs := updatePack s.packs packId newPack
            builds := s.builds ++ [b] }, .built b newPack, 1)
      else
        let newPack : BaselinePackRec :=
          { pack with
            status := .error
            issues := unsatisfied.map (·.item_id) }
        ({ s with packs := updatePack s.packs packId newPack },
          .preconditionFailed newPack, 0)

/-- After replacing the pack for `packId`, `find?` by pack id returns the
replacement. -/
theorem find?_updatePack (packs : List BaselinePackRec) (packId : String)
    (newPack pack : BaselinePackRec)
    (hfind : packs.find? (fun p => p.baseline_pack_id == packId) = some pack)
    (hnew : (newPack.baseline_pack_id == packId) = true) :
    (updatePack packs packId newPack).find?
      (fun p => p.baseline_pack_id == packId) = some newPack := by
  induction packs with
  | nil => cases hfind
  | cons a l ih =>
    cases ha : (a.baseline_pack_id == packId) with
    | true =>
      simp only [updatePack, List.map_cons, if_pos ha]
      simp [List.find?_cons, hnew]
    | false =>
      have hfind2 : l.find? (fun p => p.baseline_pack_id == packId)
          = some pack := by
        simp only [List.find?_cons, ha] at hfind
        exact hfind
      have hna : ¬((a.baseline_pack_id == packId) = true) := by
        simp [ha]
      simp only [updatePack, List.map_cons, if_neg hna]
      simp only [List.find?_cons, ha]
      exact ih hfind2

/-- C5: the baseline precondition fails fast — when any of the pack's items
references a Run that is not both `complete` and `gate1_pass=true`, the pack
transitions to `error` (never `building`) with an issue enumerating exactly
the unsatisfied items, the aggregated result is untouched, and zero
aggregation passes are performed. -/
theorem baselinePack_precondition (s : PackStore) (packId : String)
    (pack : BaselinePackRec)
    (hfp : s.packs.find? (fun p => p.baseline_pack_id == packId) = some pack)
    (hnb : s.builds.find? (fun b => b.build_key == packId) = none)
    (hbad : ∃ it ∈ pack.items, runQualifies s.runs it.run_id = false) :
    (processBaselinePackBuild s packId).2.2 = 0 ∧
    ∃ pack2,
      (processBaselinePackBuild s packId).2.1 = .preconditionFailed pack2 ∧
      (processBaselinePackBuild s packId).1
        = { s with packs := updatePack s.packs packId pack2 } ∧
      pack2.status = .error ∧
      pack2.status ≠ .building ∧
      pack2.issues = (pack.items.filter
        (fun it => !(runQualifies s.runs it.run_id))).map (·.item_id) ∧
      pack2.issues ≠ [] ∧
      pack2.result = pack.result := by
  have hne : (pack.items.filter
      (fun it => !(runQualifies s.runs it.run_id))).isEmpty = false := by
    obtain ⟨it, hit, hq⟩ := hbad
    have hmem : it ∈ pack.items.filter
        (fun it => !(runQualifies s.runs it.run_id)) :=
      List.mem_filter.mpr ⟨hit, by rw [hq]; rfl⟩
    cases hflt : pack.items.filter (fun it => !(runQualifies s.runs it.run_id)) with
    | nil => rw [hflt] at hmem; cases hmem
    | cons a l => rfl
  obtain ⟨pack2, hp2⟩ : ∃ p : BaselinePackRec,
      p = { pack with
            status := .error
            issues := (pack.items.filter
              (fun it => !(runQualifies s.runs it.run_id))).map
                (·.item_id) } := ⟨_, rfl⟩
  have heq : processBaselinePackBuild s packId
      = ({ s with packs := updatePack s.packs packId pack2 },
          .preconditionFailed pack2, 0) := by
    rw [hp2]
    simp only [processBaselinePackBuild, hfp, hnb]
    rw [if_neg (by simp [hne])]
  refine ⟨by rw [heq], pack2, by rw [heq], by rw [heq],
    by rw [hp2], by rw [hp2]; simp, by rw [hp2], ?_, by rw [hp2]⟩
  rw [hp2]
  show (pack.items.filter
      (fun it => !(runQualifies s.runs it.run_id))).map (·.item_id) ≠ []
  intro hmap
  rw [List.map_eq_nil_iff] at hmap
  rw [hmap] at hne
  cases hne

/-- C6: baseline-pack build is idempotent — once a build succeeded, a second
build call for the same pack id hits the build idempotency key (equal to the
pack id), returns the first build's identifiers, performs zero aggregation
passes, and leaves the store unchanged. -/
theorem baselinePack_build_idempotent (s : PackStore) (packId : String)
    (b : PackBuild) (pack2 : BaselinePackRec)
    (h : (processBaselinePackBuild s packId).2.1 = .built b pack2) :
    processBaselinePackBuild (processBaselinePackBuild s packId).1 packId
      = ((processBaselinePackBuild s packId).1, .alreadyBuilt b, 0) := by
  cases hfp : s.packs.find? (fun p => p.baseline_pack_id == packId) with
  | none =>
    simp only [processBaselinePackBuild, hfp] at h
    cases h
  | some pack =>
    cases hnb : s.builds.find? (fun x => x.build_key == packId) with
    | some b0 =>
      simp only [processBaselinePackBuild, hfp, hnb] at h
      cases h
    | none =>
      by_cases hemp : (pack.items.filter
          (fun it => !(runQualifies s.runs it.run_id))).isEmpty = true
      · obtain ⟨npack, hnp⟩ : ∃ p : BaselinePackRec,
            p = { pack with
                  status := .baseline_ready
                  result := some (aggregateOutputs (pack.items.filterMap
                    (fun it => (s.runs.find?
                      (fun r => r.run_id == it.run_id)).bind (·.output))))
                  issues := [] } := ⟨_, rfl⟩
        obtain ⟨nb, hnbd⟩ : ∃ x : PackBuild,
            x = { build_key := packId, build_id := s.builds.length,
                  job_id := s.builds.length } := ⟨_, rfl⟩
        have heq : processBaselinePackBuild s packId
            = ({ s with
                  packs := updatePack s.packs packId npack
                  builds := s.builds ++ [nb] }, .built nb npack, 1) := by
          rw [hnp, hnbd]
          simp only [processBaselinePackBuild, hfp, hnb]
          rw [if_pos hemp]
        rw [heq] at h
        simp only [BuildOutcome.built.injEq] at h
        obtain ⟨rfl, rfl⟩ := h
        have hkey0 := List.find?_some hfp
        have hkey : (pack.baseline_pack_id == packId) = true := hkey0
        have hidm : (npack.baseline_pack_id == packId) = true := by
          rw [hnp]
          exact hkey
        have hfp2 := find?_updatePack s.packs packId npack pack hfp hidm
        have hb2 : (s.builds ++ [nb]).find? (fun x => x.build_key == packId)
            = some nb := by
          rw [find?_append_left_none _ _ _ hnb, hnbd]
          simp [List.find?_cons]
        rw [heq]
        simp only [processBaselinePackBuild, hfp2, hb2]
      · simp only [processBaselinePackBuild, hfp, hnb] at h
        rw [if_neg hemp] at h
        cases h

/-- A completed, Gate-1-passing run with the given id. -/
def doneRun (rid : Nat) : Run :=
  { run_id := rid, idempotency_key := "k", status := .complete,
    gate1_pass := some true, analysis_type := "single_meeting",
    output := some passingOut, issues := [], error := none }

/-- A still-running run with the given id. -/
def runningRun (rid : Nat) : Run :=
  { run_id := rid, idempotency_key := "k", status := .running,
    gate1_pass := none, analysis_type := "single_meeting",
    output := none, issues := [], error := none }

/-- A three-item intake pack referencing runs 1, 2 and 3. -/
def samplePack : BaselinePackRec :=
  { baseline_pack_id := "bp1", status := .intake,
    items := [⟨"i1", 1⟩, ⟨"i2", 2⟩, ⟨"i3", 3⟩],
    result := none, issues := [] }

/-- The spec's unready-item scenario: two passing runs plus one still
running. -/
def mixedPackStore : PackStore :=
  { runs := [doneRun 1, doneRun 2, runningRun 3],
    packs := [samplePack], builds := [] }

/-- A store in which all three linked runs qualify. -/
def readyPackStore : PackStore :=
  { runs := [doneRun 1, doneRun 2, doneRun 3],
    packs := [samplePack], builds := [] }

/-- Witness for C5 at the spec's unready-item scenario
{complete/pass, complete/pass, running}: the pack errors, the issue names
the third item, and no aggregation happens. -/
theorem baselinePack_precondition_witness :
    (processBaselinePackBuild mixedPackStore "bp1").2.2 = 0 ∧
    ∃ pack2,
      (processBaselinePackBuild mixedPackStore "bp1").2.1
        = .preconditionFailed pack2 ∧
      (processBaselinePackBuild mixedPackStore "bp1").1
        = { mixedPackStore with
            packs := updatePack mixedPackStore.packs "bp1" pack2 } ∧
      pack2.status = .error ∧
      pack2.status ≠ .building ∧
      pack2.issues = (samplePack.items.filter
        (fun it => !(runQualifies mixedPackStore.runs it.run_id))).map
          (·.item_id) ∧
      pack2.issues ≠ [] ∧
      pack2.result = samplePack.result :=
  baselinePack_precondition mixedPackStore "bp1" samplePack (by decide)
    (by decide) (by decide)

example :
    (processBaselinePackBuild mixedPackStore "bp1").2.1
      = .preconditionFailed { samplePack with
          status := .error
          issues := ["i3"] } := by decide

/-- Witness for C6: after a successful build of the all-qualifying pack, a
second build call returns the same build identifiers, runs no aggregation,
and leaves the store unchanged. -/
theorem baselinePack_build_idempotent_witness :
    processBaselinePackBuild
        (processBaselinePackBuild readyPackStore "bp1").1 "bp1"
      = ((processBaselinePackBuild readyPackStore "bp1").1,
          .alreadyBuilt ⟨"bp1", 0, 0⟩, 0) :=
  baselinePack_build_idempotent readyPackStore "bp1" ⟨"bp1", 0, 0⟩
    { samplePack with
      status := .baseline_ready
      result := some (aggregateOutputs [passingOut, passingOut, passingOut])
      issues := [] }
    (by decide)

end LCC
